import Mathlib

/-!
Shallow embedding of the sfx-player library (src/src/index.ts): a sound-effects
player built around a module-level audio cache, global volume/mute policy, and
deferred (setTimeout-based) playback start and sample stop.

Mutable module state (`audioCache`, `globalVolume`, `muted`) is threaded
explicitly as a `GlobalState`.  HTML audio elements are modelled as records of
the fields the library touches (`src`, `preload`, `volume`, `loop`,
`currentTime`, `paused`).  JavaScript `setTimeout` scheduling is modelled by
`Timer` values carrying an absolute fire time and a `Callback`, executed by a
small fuel-based event loop `runTimers`; `Math.random()` is an explicit
parameter `r` with the contract `0 ≤ r < 1`.  Observable side effects (handle
creation, media load, scheduling, play, stop, console warnings) are recorded
in an `Event` trace.  Fallible JavaScript evaluation (the `undefined.start`
dereference reachable in `playSoundSample`) is modelled with `Except JsError`.
-/

namespace SfxPlayer

/-- A sample with start time and duration (interface SoundSample). -/
structure SoundSample where
  start : ℚ
  duration : ℚ
deriving DecidableEq, Repr

/-- The fields of an HTMLAudioElement that the library reads or writes. -/
structure AudioElement where
  src : String
  preloadAttr : String
  volume : ℚ
  loop : Bool
  currentTime : ℚ
  paused : Bool
deriving DecidableEq, Repr

/-- `new Audio(path)`: a fresh, paused element bound to `path`. -/
def mkAudioElem (path : String) : AudioElement :=
  { src := path, preloadAttr := "", volume := 1, loop := false,
    currentTime := 0, paused := true }

/-- The module-level mutable state of index.ts: the audio cache `Map`,
`globalVolume` and `muted`. -/
structure GlobalState where
  audioCache : List (String × AudioElement)
  globalVolume : ℚ
  muted : Bool
deriving DecidableEq, Repr

/-- The module's initial state: empty cache, volume 0.7, unmuted. -/
def initGlobal : GlobalState :=
  { audioCache := [], globalVolume := 7/10, muted := false }

/-- `Map.has` / `key in obj` on an association list. -/
def alistHas {α : Type} (l : List (String × α)) (k : String) : Bool :=
  l.any (fun e => e.1 == k)

/-- `Map.get` / `obj[key]` on an association list. -/
def alistGet {α : Type} (l : List (String × α)) (k : String) : Option α :=
  (l.find? (fun e => e.1 == k)).map (fun e => e.2)

/-- `Map.set` / `obj[key] = v`: replace if present, else append. -/
def alistSet {α : Type} (l : List (String × α)) (k : String) (v : α) :
    List (String × α) :=
  if alistHas l k then l.map (fun e => if e.1 == k then (k, v) else e)
  else l ++ [(k, v)]

/-- Number of entries stored under key `k`. -/
def countKey {α : Type} (l : List (String × α)) (k : String) : Nat :=
  (l.filter (fun e => e.1 == k)).length

/-- The per-instance fields of class SoundEffectsPlayer. -/
structure SoundEffectsPlayer where
  soundPaths : List (String × String)
  sampleCollections : List (String × List SoundSample)
deriving DecidableEq, Repr

/-- `Math.max(0, Math.min(1, v))`. -/
def jsClamp01 (v : ℚ) : ℚ := max 0 (min 1 v)

/-- The constructor: stores the sound paths and assigns the clamped initial
volume to the module-level `globalVolume`. -/
def SoundEffectsPlayer.make (soundPaths : List (String × String))
    (initialVolume : ℚ) (g : GlobalState) : SoundEffectsPlayer × GlobalState :=
  ({ soundPaths := soundPaths, sampleCollections := [] },
   { g with globalVolume := jsClamp01 initialVolume })

/-- registerSamples: stores/replaces the sample collection for `key`. -/
def registerSamples (p : SoundEffectsPlayer) (key : String)
    (samples : List SoundSample) : SoundEffectsPlayer :=
  { p with sampleCollections := alistSet p.sampleCollections key samples }

/-- Observable side effects, in issuance order. -/
inductive Event where
  | newHandle (key : String)
  | load (key : String)
  | schedStart (delay : ℚ)
  | played (key : String)
  | schedStop (delay : ℚ)
  | stopped
  | warnNotFound (key : String)
  | warnNoCollection (key : String)
deriving DecidableEq, Repr

/-- preloadSound: if `key` is not cached, create a handle for `path`, set
`preload = 'auto'`, cache it and start loading; otherwise do nothing. -/
def preloadSound (g : GlobalState) (key path : String) :
    GlobalState × List Event :=
  if alistHas g.audioCache key then (g, [])
  else
    let aud := { mkAudioElem path with preloadAttr := "auto" }
    ({ g with audioCache := alistSet g.audioCache key aud },
     [Event.newHandle key, Event.load key])

/-- preloadAllSounds: preloadSound for every configured (key, path) pair. -/
def preloadAllSounds (p : SoundEffectsPlayer) (g : GlobalState) :
    GlobalState × List Event :=
  p.soundPaths.foldl
    (fun acc kv =>
      let r := preloadSound acc.1 kv.1 kv.2
      (r.1, acc.2 ++ r.2))
    (g, [])

/-- The body of a pending `setTimeout` callback. -/
inductive Callback where
  | startCb (key : String)
  | sampleStartCb (key : String) (duration : ℚ)
  | stopCb
deriving DecidableEq, Repr

/-- A pending `setTimeout`: absolute fire time plus callback. -/
structure Timer where
  fireTime : ℚ
  cb : Callback
deriving DecidableEq, Repr

/-- The synchronous result of a play call: the returned instance (if any), the
updated module state, the timers registered, and the events issued. -/
structure PlayOutcome where
  inst : Option AudioElement
  g : GlobalState
  timers : List Timer
  events : List Event
deriving DecidableEq, Repr

/-- The lazy-preload step shared by playSound and playSoundSample:
`if (!audioCache.has(key) && key in this.soundPaths) preloadSound(...)`. -/
def lazyPreload (p : SoundEffectsPlayer) (g : GlobalState) (key : String) :
    GlobalState × List Event :=
  if alistHas g.audioCache key then (g, [])
  else
    match alistGet p.soundPaths key with
    | some path => preloadSound g key path
    | none => (g, [])

/-- playSound: mute gate, lazy preload, clone from the cached handle's src,
assign volume (override verbatim, else global) and loop, defer `play()` via a
zero-delay timer, return the instance; warn NotFound when not cached. -/
def playSound (p : SoundEffectsPlayer) (g : GlobalState) (key : String)
    (volume : Option ℚ) (loop : Bool) (now : ℚ) : PlayOutcome :=
  if g.muted then ⟨none, g, [], []⟩
  else
    let pre := lazyPreload p g key
    match alistGet pre.1.audioCache key with
    | some aud =>
        let soundInstance :=
          { mkAudioElem aud.src with
              volume := volume.getD pre.1.globalVolume, loop := loop }
        ⟨some soundInstance, pre.1,
         [⟨now + 0, Callback.startCb key⟩],
         pre.2 ++ [Event.schedStart 0]⟩
    | none => ⟨none, pre.1, [], pre.2 ++ [Event.warnNotFound key]⟩

/-- JavaScript array indexing `l[i]`: `undefined` (none) outside bounds. -/
def jsIndex {α : Type} (l : List α) (i : ℤ) : Option α :=
  if 0 ≤ i then l.get? i.toNat else none

/-- `samples[Math.floor(Math.random() * samples.length)]` with `r` standing
for the `Math.random()` result. -/
def selectedSample (samples : List SoundSample) (r : ℚ) : Option SoundSample :=
  jsIndex samples (Int.floor (r * (samples.length : ℚ)))

/-- A thrown JavaScript error. -/
inductive JsError where
  | typeError (msg : String)
deriving DecidableEq, Repr

/-- playSoundSample: as playSound but without a loop flag; selects a random
sample, positions `currentTime` at its start, defers `play()` via a zero-delay
timer whose callback also schedules the stop timer.  When the selected index
is out of bounds (empty `samples`), dereferencing `undefined.start` throws. -/
def playSoundSample (p : SoundEffectsPlayer) (g : GlobalState) (key : String)
    (samples : List SoundSample) (volume : Option ℚ) (r : ℚ) (now : ℚ) :
    Except JsError PlayOutcome :=
  if g.muted then .ok ⟨none, g, [], []⟩
  else
    let pre := lazyPreload p g key
    match alistGet pre.1.audioCache key with
    | some aud =>
        let inst0 :=
          { mkAudioElem aud.src with volume := volume.getD pre.1.globalVolume }
        match selectedSample samples r with
        | none => .error (JsError.typeError "cannot read start of undefined")
        | some s =>
            let soundInstance := { inst0 with currentTime := s.start }
            .ok ⟨some soundInstance, pre.1,
                 [⟨now + 0, Callback.sampleStartCb key s.duration⟩],
                 pre.2 ++ [Event.schedStart 0]⟩
    | none => .ok ⟨none, pre.1, [], pre.2 ++ [Event.warnNotFound key]⟩

/-- playRegisteredSample: delegate to playSoundSample when a collection is
registered for `key`, else warn NoCollection and return nothing. -/
def playRegisteredSample (p : SoundEffectsPlayer) (g : GlobalState)
    (key : String) (volume : Option ℚ) (r : ℚ) (now : ℚ) :
    Except JsError PlayOutcome :=
  match alistGet p.sampleCollections key with
  | some samples => playSoundSample p g key samples volume r now
  | none => .ok ⟨none, g, [], [Event.warnNoCollection key]⟩

/-- stopSound (method and free function): pause and reset the cursor to 0. -/
def stopSound (aud : AudioElement) : AudioElement :=
  { aud with paused := true, currentTime := 0 }

/-- Execute one fired callback at time `t` on the play instance: returns the
updated instance, the timers it registers, and the events it issues. -/
def fireCallback (t : ℚ) (cb : Callback) (inst : AudioElement) :
    AudioElement × List Timer × List Event :=
  match cb with
  | .startCb key => ({ inst with paused := false }, [], [Event.played key])
  | .sampleStartCb key dur =>
      ({ inst with paused := false },
       [⟨t + dur * 1000, Callback.stopCb⟩],
       [Event.played key, Event.schedStop (dur * 1000)])
  | .stopCb => (stopSound inst, [], [Event.stopped])

/-- Fuel-bounded event loop: fire pending timers in order, appending newly
registered timers behind the remaining queue. -/
def runTimers : Nat → List Timer → AudioElement → AudioElement × List Event
  | 0, _, a => (a, [])
  | _ + 1, [], a => (a, [])
  | fuel + 1, t :: rest, a =>
      let step := fireCallback t.fireTime t.cb a
      let restRun := runTimers fuel (rest ++ step.2.1) step.1
      (restRun.1, step.2.2 ++ restRun.2)

/-- setVolume: clamp and store the global volume. -/
def setVolume (g : GlobalState) (volume : ℚ) : GlobalState :=
  { g with globalVolume := jsClamp01 volume }

/-- getVolume: read the global volume. -/
def getVolume (g : GlobalState) : ℚ := g.globalVolume

/-- setMuted: store the global mute flag. -/
def setMuted (g : GlobalState) (b : Bool) : GlobalState :=
  { g with muted := b }

/-- isMuted: read the global mute flag. -/
def isMuted (g : GlobalState) : Bool := g.muted

/-- A cached handle for the demo key "a", as preloadSound would create it. -/
def demoAud : AudioElement := { mkAudioElem "a.mp3" with preloadAttr := "auto" }

/-- A demo module state: "a" cached, default volume, unmuted. -/
def demoG : GlobalState :=
  { audioCache := [("a", demoAud)], globalVolume := 7/10, muted := false }

/-- A demo player configured with the single sound "a". -/
def demoP : SoundEffectsPlayer :=
  { soundPaths := [("a", "a.mp3")], sampleCollections := [] }

/-- A demo muted module state. -/
def demoGMuted : GlobalState :=
  { audioCache := [("a", demoAud)], globalVolume := 7/10, muted := true }

lemma alistGet_eq_none {α : Type} (l : List (String × α)) (k : String)
    (h : alistHas l k = false) : alistGet l k = none := by
  induction l with
  | nil => rfl
  | cons e t ih =>
      simp only [alistHas, List.any_cons, Bool.or_eq_false_iff] at h
      have ht := ih h.2
      simp only [alistGet] at ht ⊢
      rw [List.find?_cons_of_neg _ (by simp [h.1])]
      exact ht

lemma countKey_eq_zero {α : Type} (l : List (String × α)) (k : String)
    (h : alistHas l k = false) : countKey l k = 0 := by
  induction l with
  | nil => rfl
  | cons e t ih =>
      simp only [alistHas, List.any_cons, Bool.or_eq_false_iff] at h
      simp [countKey, List.filter_cons, h.1] at ih ⊢
      exact ih h.2

lemma alistHas_append_self {α : Type} (l : List (String × α)) (k : String)
    (v : α) : alistHas (l ++ [(k, v)]) k = true := by
  simp [alistHas, List.any_append]

lemma countKey_append_self {α : Type} (l : List (String × α)) (k : String)
    (v : α) : countKey (l ++ [(k, v)]) k = countKey l k + 1 := by
  simp [countKey, List.filter_append]

instance : DecidableEq (Except JsError PlayOutcome) := fun a b =>
  match a, b with
  | Except.ok x, Except.ok y =>
      if h : x = y then isTrue (by rw [h]) else isFalse (by simp [h])
  | Except.ok _, Except.error _ => isFalse (by simp)
  | Except.error _, Except.ok _ => isFalse (by simp)
  | Except.error e, Except.error f =>
      if h : e = f then isTrue (by rw [h]) else isFalse (by simp [h])

lemma preloadSound_policy (g : GlobalState) (k path : String) :
    (preloadSound g k path).1.globalVolume = g.globalVolume ∧
    (preloadSound g k path).1.muted = g.muted := by
  unfold preloadSound
  split <;> exact ⟨rfl, rfl⟩

lemma lazyPreload_policy (p : SoundEffectsPlayer) (g : GlobalState)
    (k : String) :
    (lazyPreload p g k).1.globalVolume = g.globalVolume ∧
    (lazyPreload p g k).1.muted = g.muted := by
  unfold lazyPreload
  split
  · exact ⟨rfl, rfl⟩
  · split
    · exact preloadSound_policy g k _
    · exact ⟨rfl, rfl⟩

lemma preloadAll_policy_aux (l : List (String × String)) :
    ∀ acc : GlobalState × List Event,
      (l.foldl (fun acc kv =>
          let r := preloadSound acc.1 kv.1 kv.2
          (r.1, acc.2 ++ r.2)) acc).1.globalVolume = acc.1.globalVolume ∧
      (l.foldl (fun acc kv =>
          let r := preloadSound acc.1 kv.1 kv.2
          (r.1, acc.2 ++ r.2)) acc).1.muted = acc.1.muted := by
  induction l with
  | nil => intro acc; exact ⟨rfl, rfl⟩
  | cons kv t ih =>
      intro acc
      simp only [List.foldl_cons]
      have h1 := preloadSound_policy acc.1 kv.1 kv.2
      have h2 := ih ((preloadSound acc.1 kv.1 kv.2).1,
        acc.2 ++ (preloadSound acc.1 kv.1 kv.2).2)
      exact ⟨h2.1.trans h1.1, h2.2.trans h1.2⟩

lemma preloadAllSounds_policy (p : SoundEffectsPlayer) (g : GlobalState) :
    (preloadAllSounds p g).1.globalVolume = g.globalVolume ∧
    (preloadAllSounds p g).1.muted = g.muted := by
  unfold preloadAllSounds
  exact preloadAll_policy_aux p.soundPaths (g, [])

/-- Inversion of a playSoundSample call that returned an instance: the call
was unmuted, the key was cached after lazy preload, a sample was selected, and
the outcome is exactly the structure the source builds. -/
lemma playSoundSample_ok_some (p : SoundEffectsPlayer) (g : GlobalState)
    (key : String) (samples : List SoundSample) (vol : Option ℚ) (r now : ℚ)
    (o : PlayOutcome) (inst : AudioElement)
    (h : playSoundSample p g key samples vol r now = Except.ok o)
    (hi : o.inst = some inst) :
    ∃ aud s,
      g.muted = false ∧
      alistGet (lazyPreload p g key).1.audioCache key = some aud ∧
      selectedSample samples r = some s ∧
      inst = { mkAudioElem aud.src with
                 volume := vol.getD (lazyPreload p g key).1.globalVolume,
                 currentTime := s.start } ∧
      o = ⟨some inst, (lazyPreload p g key).1,
           [⟨now + 0, Callback.sampleStartCb key s.duration⟩],
           (lazyPreload p g key).2 ++ [Event.schedStart 0]⟩ := by
  simp only [playSoundSample] at h
  split at h
  · rename_i hm
    cases h
    simp at hi
  · rename_i hm
    split at h
    · rename_i aud haud
      split at h
      · exact absurd h (by simp)
      · rename_i s hs
        cases h
        simp only [PlayOutcome.inst, Option.some.injEq] at hi
        refine ⟨aud, s, by simpa using hm, haud, hs, hi.symm, ?_⟩
        rw [hi]
    · cases h
      simp at hi

/-- The instance built via the sample record, as c2 and c9 witnesses need it:
key "a" cached as demoAud, no override, sample start 1/2. -/
def sampleHalf : SoundSample := ⟨1/2, 2⟩

/-- The play instance produced by `playSoundSample demoP demoG "a" [sampleHalf]
none 0 0`. -/
def instHalf : AudioElement :=
  { src := "a.mp3", preloadAttr := "", volume := 7/10, loop := false,
    currentTime := 1/2, paused := true }

/-- The full outcome of `playSoundSample demoP demoG "a" [sampleHalf] none
0 0`. -/
def outHalf : PlayOutcome :=
  ⟨some instHalf, demoG, [⟨0 + 0, Callback.sampleStartCb "a" 2⟩],
   [Event.schedStart 0]⟩

/-- Evaluation of a single-sample demo call with `Math.random() = 0` at time
0: the one sample is selected and the instance carries its start offset. -/
lemma playSoundSample_demo_single (s : SoundSample) (vol : Option ℚ) :
    playSoundSample demoP demoG "a" [s] vol 0 0 =
      Except.ok ⟨some ⟨"a.mp3", "", vol.getD (7/10), false, s.start, true⟩,
                 demoG, [⟨0 + 0, Callback.sampleStartCb "a" s.duration⟩],
                 [Event.schedStart 0]⟩ := by
  have hsel : selectedSample [s] 0 = some s := by
    simp [selectedSample, jsIndex]
  simp [playSoundSample, lazyPreload, demoP, demoG, demoAud, alistHas,
    alistGet, hsel, mkAudioElem]

/-- C8: `setVolume(v)` followed by `getVolume()` returns `clamp(v, 0, 1)`,
for every rational volume `v` and every prior global state. -/
theorem c8_setVolume_then_getVolume (g : GlobalState) (v : ℚ) :
    getVolume (setVolume g v) = max 0 (min 1 v) := rfl

/-- C5: while the global mute flag is set, playSound and playSoundSample
return no instance, register no timers and issue no events, for every key. -/
theorem c5_muted_returns_nothing_schedules_nothing
    (p : SoundEffectsPlayer) (g : GlobalState) (key : String)
    (samples : List SoundSample) (vol : Option ℚ) (loop : Bool) (r now : ℚ)
    (h : g.muted = true) :
    (playSound p g key vol loop now).inst = none ∧
    (playSound p g key vol loop now).timers = [] ∧
    (playSound p g key vol loop now).events = [] ∧
    playSoundSample p g key samples vol r now = Except.ok ⟨none, g, [], []⟩ := by
  simp [playSound, playSoundSample, h]

/-- C5 witness: a concrete muted call. -/
theorem c5_witness :
    (playSound demoP demoGMuted "a" none false 0).inst = none ∧
    (playSound demoP demoGMuted "a" none false 0).timers = [] ∧
    (playSound demoP demoGMuted "a" none false 0).events = [] ∧
    playSoundSample demoP demoGMuted "a" [⟨0, 1⟩] none 0 0 =
      Except.ok ⟨none, demoGMuted, [], []⟩ :=
  c5_muted_returns_nothing_schedules_nothing demoP demoGMuted "a"
    [⟨0, 1⟩] none false 0 0 rfl

/-- C6: an identifier with neither a cache entry nor a registry entry, played
while unmuted, yields no instance and exactly one NotFound warning. -/
theorem c6_unknown_key_warns_notfound_once
    (p : SoundEffectsPlayer) (g : GlobalState) (key : String)
    (vol : Option ℚ) (loop : Bool) (now : ℚ)
    (hm : g.muted = false)
    (hc : alistHas g.audioCache key = false)
    (hp : alistHas p.soundPaths key = false) :
    playSound p g key vol loop now = ⟨none, g, [], [Event.warnNotFound key]⟩ := by
  simp [playSound, lazyPreload, hm, hc,
    alistGet_eq_none g.audioCache key hc, alistGet_eq_none p.soundPaths key hp]

/-- C6 witness: playing the unconfigured key "x" on the demo player. -/
theorem c6_witness :
    playSound demoP demoG "x" none false 0 =
      ⟨none, demoG, [], [Event.warnNotFound "x"]⟩ :=
  c6_unknown_key_warns_notfound_once demoP demoG "x" none false 0
    rfl rfl rfl

/-- C7: for an identifier not yet cached, the first preloadSound call creates
the handle, does the load work and caches exactly one entry; a second call
with any path is a no-op (same state, no events). -/
theorem c7_preload_idempotent
    (g : GlobalState) (k path path2 : String)
    (h : alistHas g.audioCache k = false) :
    countKey (preloadSound g k path).1.audioCache k = 1 ∧
    (preloadSound g k path).2 = [Event.newHandle k, Event.load k] ∧
    preloadSound (preloadSound g k path).1 k path2 =
      ((preloadSound g k path).1, []) := by
  have hset : alistSet g.audioCache k
      { mkAudioElem path with preloadAttr := "auto" } =
      g.audioCache ++ [(k, { mkAudioElem path with preloadAttr := "auto" })] := by
    simp [alistSet, h]
  refine ⟨?_, ?_, ?_⟩
  · simp [preloadSound, h, hset, countKey_append_self, countKey_eq_zero _ _ h]
  · simp [preloadSound, h]
  · simp [preloadSound, h, hset, alistHas_append_self]

/-- C7 witness: preloading "a" twice starting from the initial module state. -/
theorem c7_witness :
    countKey (preloadSound initGlobal "a" "a.mp3").1.audioCache "a" = 1 ∧
    (preloadSound initGlobal "a" "a.mp3").2 =
      [Event.newHandle "a", Event.load "a"] ∧
    preloadSound (preloadSound initGlobal "a" "a.mp3").1 "a" "b.mp3" =
      ((preloadSound initGlobal "a" "a.mp3").1, []) :=
  c7_preload_idempotent initGlobal "a" "a.mp3" "b.mp3" rfl

/-- C10: while muted, playSound and playSoundSample leave the module state
untouched: the returned state is the input state, so the audio cache has
exactly the entries it had before (no lazy preload happens). -/
theorem c10_muted_leaves_state_unchanged
    (p : SoundEffectsPlayer) (g : GlobalState) (key : String)
    (samples : List SoundSample) (vol : Option ℚ) (loop : Bool) (r now : ℚ)
    (o : PlayOutcome)
    (hm : g.muted = true)
    (ho : playSoundSample p g key samples vol r now = Except.ok o) :
    (playSound p g key vol loop now).g = g ∧
    (playSound p g key vol loop now).g.audioCache = g.audioCache ∧
    o.g = g ∧ o.g.audioCache = g.audioCache := by
  simp only [playSoundSample, hm, if_true] at ho
  cases ho
  simp [playSound, hm]

/-- C10 witness: a concrete muted call on the demo player. -/
theorem c10_witness :
    (playSound demoP demoGMuted "a" none false 0).g = demoGMuted ∧
    (playSound demoP demoGMuted "a" none false 0).g.audioCache =
      demoGMuted.audioCache ∧
    PlayOutcome.g ⟨none, demoGMuted, [], []⟩ = demoGMuted ∧
    (PlayOutcome.g ⟨none, demoGMuted, [], []⟩).audioCache =
      demoGMuted.audioCache :=
  c10_muted_leaves_state_unchanged demoP demoGMuted "a" [] none false 0 0
    ⟨none, demoGMuted, [], []⟩ rfl rfl

lemma playSound_policy (p : SoundEffectsPlayer) (g : GlobalState)
    (key : String) (vol : Option ℚ) (loop : Bool) (now : ℚ) :
    (playSound p g key vol loop now).g.globalVolume = g.globalVolume ∧
    (playSound p g key vol loop now).g.muted = g.muted := by
  cases hm : g.muted with
  | true => simp [playSound, hm]
  | false =>
      cases hget : alistGet (lazyPreload p g key).1.audioCache key with
      | some aud =>
          simpa [playSound, hm, hget] using lazyPreload_policy p g key
      | none =>
          simpa [playSound, hm, hget] using lazyPreload_policy p g key

lemma playSoundSample_ok_policy (p : SoundEffectsPlayer) (g : GlobalState)
    (key : String) (samples : List SoundSample) (vol : Option ℚ) (r now : ℚ)
    (o : PlayOutcome)
    (h : playSoundSample p g key samples vol r now = Except.ok o) :
    o.g.globalVolume = g.globalVolume ∧ o.g.muted = g.muted := by
  simp only [playSoundSample] at h
  split at h
  · cases h; exact ⟨rfl, rfl⟩
  · split at h
    · split at h
      · exact absurd h (by simp)
      · cases h; exact lazyPreload_policy p g key
    · cases h; exact lazyPreload_policy p g key

lemma playRegisteredSample_ok_policy (p : SoundEffectsPlayer)
    (g : GlobalState) (key : String) (vol : Option ℚ) (r now : ℚ)
    (o2 : PlayOutcome)
    (h : playRegisteredSample p g key vol r now = Except.ok o2) :
    o2.g.globalVolume = g.globalVolume ∧ o2.g.muted = g.muted := by
  unfold playRegisteredSample at h
  split at h
  · exact playSoundSample_ok_policy p g key _ vol r now o2 h
  · cases h; exact ⟨rfl, rfl⟩

/-- Inversion of a playSound call that returned an instance. -/
lemma playSound_some (p : SoundEffectsPlayer) (g : GlobalState) (key : String)
    (vol : Option ℚ) (loop : Bool) (now : ℚ) (inst : AudioElement)
    (h : (playSound p g key vol loop now).inst = some inst) :
    ∃ aud,
      g.muted = false ∧
      alistGet (lazyPreload p g key).1.audioCache key = some aud ∧
      inst = { mkAudioElem aud.src with
                 volume := vol.getD (lazyPreload p g key).1.globalVolume,
                 loop := loop } := by
  simp only [playSound] at h
  split at h
  · simp at h
  · rename_i hm
    split at h
    · rename_i aud haud
      simp only [Option.some.injEq] at h
      exact ⟨aud, by simpa using hm, haud, h.symm⟩
    · simp at h

/-- The play instance produced when the volume override 2 is passed through
unclamped (`playSound demoP demoG "a" (some 2) false 0`, and likewise the
sample call with sample ⟨0, 1⟩). -/
def instOver : AudioElement :=
  { src := "a.mp3", preloadAttr := "", volume := 2, loop := false,
    currentTime := 0, paused := true }

/-- The outcome of `playSoundSample demoP demoG "a" [⟨0, 1⟩] (some 2) 0 0`. -/
def outOver : PlayOutcome :=
  ⟨some instOver, demoG, [⟨0 + 0, Callback.sampleStartCb "a" 1⟩],
   [Event.schedStart 0]⟩

/-- C2 counterexample: the per-call volume override is stored on the instance
verbatim; passing 2 stores 2, which clamping would have sent to 1. -/
theorem c2_counterexample :
    ((playSound demoP demoG "a" (some 2) false 0).inst.map
      AudioElement.volume) = some 2 ∧
    jsClamp01 2 = 1 ∧ ¬((2 : ℚ) ≤ 1) := by decide

/-- C2 amended: the constructor and setVolume do clamp (and their stored
value lies in [0,1]), but playSound and playSoundSample write a supplied
volume override onto the instance verbatim, unclamped. -/
theorem c2_amended_override_unclamped
    (paths : List (String × String)) (v : ℚ) (g : GlobalState)
    (p : SoundEffectsPlayer) (key : String) (vol : ℚ) (loop : Bool)
    (samples : List SoundSample) (r now : ℚ)
    (inst inst2 : AudioElement) (o : PlayOutcome)
    (h1 : (playSound p g key (some vol) loop now).inst = some inst)
    (h2 : playSoundSample p g key samples (some vol) r now = Except.ok o)
    (h3 : o.inst = some inst2) :
    (SoundEffectsPlayer.make paths v g).2.globalVolume = jsClamp01 v ∧
    0 ≤ (SoundEffectsPlayer.make paths v g).2.globalVolume ∧
    (SoundEffectsPlayer.make paths v g).2.globalVolume ≤ 1 ∧
    (setVolume g v).globalVolume = jsClamp01 v ∧
    0 ≤ (setVolume g v).globalVolume ∧ (setVolume g v).globalVolume ≤ 1 ∧
    inst.volume = vol ∧ inst2.volume = vol := by
  have hv0 : (0 : ℚ) ≤ jsClamp01 v := le_max_left _ _
  have hv1 : jsClamp01 v ≤ 1 := max_le (by norm_num) (min_le_left _ _)
  obtain ⟨aud, -, -, hinst⟩ := playSound_some p g key (some vol) loop now inst h1
  obtain ⟨aud2, s2, -, -, -, hinst2, -⟩ :=
    playSoundSample_ok_some p g key samples (some vol) r now o inst2 h2 h3
  exact ⟨rfl, hv0, hv1, rfl, hv0, hv1, by simp [hinst], by simp [hinst2]⟩

/-- C2 witness: concrete calls with override 2 on the demo player. -/
theorem c2_witness :
    (SoundEffectsPlayer.make [] 2 demoG).2.globalVolume = jsClamp01 2 ∧
    0 ≤ (SoundEffectsPlayer.make [] 2 demoG).2.globalVolume ∧
    (SoundEffectsPlayer.make [] 2 demoG).2.globalVolume ≤ 1 ∧
    (setVolume demoG 2).globalVolume = jsClamp01 2 ∧
    0 ≤ (setVolume demoG 2).globalVolume ∧
    (setVolume demoG 2).globalVolume ≤ 1 ∧
    instOver.volume = 2 ∧ instOver.volume = 2 :=
  c2_amended_override_unclamped [] 2 demoG demoP "a" 2 false [⟨0, 1⟩] 0 0
    instOver instOver outOver (by decide) (playSoundSample_demo_single ⟨0, 1⟩ (some 2)) rfl

/-- C3 counterexample: constructing a SoundEffectsPlayer overwrites the
process-wide global volume (here from 0.7 to the clamped initial volume
0.2), so construction does not leave the global policy unchanged. -/
theorem c3_counterexample :
    (SoundEffectsPlayer.make [] (1/5) initGlobal).2.globalVolume = 1/5 ∧
    initGlobal.globalVolume = 7/10 ∧ ((1 : ℚ)/5) ≠ ((7 : ℚ)/10) := by
  refine ⟨?_, rfl, by norm_num⟩
  show jsClamp01 (1/5) = 1/5
  rw [jsClamp01, min_eq_right (by norm_num : (1 : ℚ)/5 ≤ 1),
    max_eq_right (by norm_num : (0 : ℚ) ≤ 1/5)]

/-- C3 amended: the global policy is mutated only by setVolume, setMuted and
the SoundEffectsPlayer constructor (which overwrites the global volume with
the clamped initial volume while preserving the mute flag); preloads and all
play operations preserve both the global volume and the mute flag. -/
theorem c3_amended_policy_mutators
    (p : SoundEffectsPlayer) (g : GlobalState)
    (paths : List (String × String)) (v : ℚ) (key path : String)
    (vol : Option ℚ) (loop : Bool) (samples : List SoundSample) (r now : ℚ)
    (o o2 : PlayOutcome)
    (h1 : playSoundSample p g key samples vol r now = Except.ok o)
    (h2 : playRegisteredSample p g key vol r now = Except.ok o2) :
    (SoundEffectsPlayer.make paths v g).2.muted = g.muted ∧
    (SoundEffectsPlayer.make paths v g).2.globalVolume = jsClamp01 v ∧
    (preloadSound g key path).1.globalVolume = g.globalVolume ∧
    (preloadSound g key path).1.muted = g.muted ∧
    (preloadAllSounds p g).1.globalVolume = g.globalVolume ∧
    (preloadAllSounds p g).1.muted = g.muted ∧
    (playSound p g key vol loop now).g.globalVolume = g.globalVolume ∧
    (playSound p g key vol loop now).g.muted = g.muted ∧
    o.g.globalVolume = g.globalVolume ∧ o.g.muted = g.muted ∧
    o2.g.globalVolume = g.globalVolume ∧ o2.g.muted = g.muted := by
  obtain ⟨ha, hb⟩ := preloadSound_policy g key path
  obtain ⟨hc, hd⟩ := preloadAllSounds_policy p g
  obtain ⟨he, hf⟩ := playSound_policy p g key vol loop now
  obtain ⟨hg1, hg2⟩ := playSoundSample_ok_policy p g key samples vol r now o h1
  obtain ⟨hh1, hh2⟩ := playRegisteredSample_ok_policy p g key vol r now o2 h2
  exact ⟨rfl, rfl, ha, hb, hc, hd, he, hf, hg1, hg2, hh1, hh2⟩

/-- C3 witness: the amended frame property at a concrete demo call. -/
theorem c3_witness :
    (SoundEffectsPlayer.make [] (1/2) demoG).2.muted = demoG.muted ∧
    (SoundEffectsPlayer.make [] (1/2) demoG).2.globalVolume =
      jsClamp01 (1/2) ∧
    (preloadSound demoG "a" "a.mp3").1.globalVolume = demoG.globalVolume ∧
    (preloadSound demoG "a" "a.mp3").1.muted = demoG.muted ∧
    (preloadAllSounds demoP demoG).1.globalVolume = demoG.globalVolume ∧
    (preloadAllSounds demoP demoG).1.muted = demoG.muted ∧
    (playSound demoP demoG "a" none false 0).g.globalVolume =
      demoG.globalVolume ∧
    (playSound demoP demoG "a" none false 0).g.muted = demoG.muted ∧
    outHalf.g.globalVolume = demoG.globalVolume ∧
    outHalf.g.muted = demoG.muted ∧
    (PlayOutcome.g ⟨none, demoG, [], [Event.warnNoCollection "a"]⟩).globalVolume
      = demoG.globalVolume ∧
    (PlayOutcome.g ⟨none, demoG, [], [Event.warnNoCollection "a"]⟩).muted =
      demoG.muted :=
  c3_amended_policy_mutators demoP demoG [] (1/2) "a" "a.mp3" none false
    [sampleHalf] 0 0 outHalf ⟨none, demoG, [], [Event.warnNoCollection "a"]⟩
    (playSoundSample_demo_single sampleHalf none) rfl

/-- C4: on an empty samples sequence the code does not signal an
EmptySampleSet error; it indexes past the end (`samples[0]` is undefined) and
throws a TypeError while reading `.start`, for every override, random draw
and call time. -/
theorem c4_empty_samples_throw (vol : Option ℚ) (r now : ℚ) :
    playSoundSample demoP demoG "a" [] vol r now =
      Except.error (JsError.typeError "cannot read start of undefined") := by
  have hsel : selectedSample [] r = none := by
    unfold selectedSample jsIndex
    split <;> simp
  simp [playSoundSample, lazyPreload, hsel, demoG, demoP, demoAud,
    alistHas, alistGet]

/-- C9: every playSoundSample call that returns an instance has positioned
the instance cursor at the selected sample start offset before the start
callback runs (and the start callback leaves the cursor there); with a
single-element samples sequence and any random draw in [0,1), that element is
the one selected. -/
theorem c9_cursor_at_selected_start
    (p : SoundEffectsPlayer) (g : GlobalState) (key : String)
    (samples : List SoundSample) (vol : Option ℚ) (r now : ℚ)
    (o : PlayOutcome) (inst : AudioElement)
    (h : playSoundSample p g key samples vol r now = Except.ok o)
    (hi : o.inst = some inst) :
    (∃ s, selectedSample samples r = some s ∧ inst.currentTime = s.start ∧
       (fireCallback now (Callback.sampleStartCb key s.duration)
         inst).1.currentTime = s.start) ∧
    (∀ (s0 : SoundSample) (r2 : ℚ), 0 ≤ r2 → r2 < 1 →
       selectedSample [s0] r2 = some s0) := by
  obtain ⟨aud, s, -, -, hs, hinst, -⟩ :=
    playSoundSample_ok_some p g key samples vol r now o inst h hi
  constructor
  · exact ⟨s, hs, by simp [hinst], by simp [hinst, fireCallback]⟩
  · intro s0 r2 h0 h1
    have hfloor : Int.floor r2 = 0 :=
      Int.floor_eq_zero_iff.mpr (Set.mem_Ico.mpr ⟨h0, h1⟩)
    simp [selectedSample, jsIndex, hfloor]

/-- C9 witness: the concrete single-sample demo call. -/
theorem c9_witness :
    (∃ s, selectedSample [sampleHalf] 0 = some s ∧
       instHalf.currentTime = s.start ∧
       (fireCallback 0 (Callback.sampleStartCb "a" s.duration)
         instHalf).1.currentTime = s.start) ∧
    (∀ (s0 : SoundSample) (r2 : ℚ), 0 ≤ r2 → r2 < 1 →
       selectedSample [s0] r2 = some s0) :=
  c9_cursor_at_selected_start demoP demoG "a" [sampleHalf] none 0 0 outHalf
    instHalf (playSoundSample_demo_single sampleHalf none) rfl

/-- C1: every playSoundSample call returning an instance registers exactly
the zero-delay start timer; when the start callback fires at time t it issues
play and schedules the stop timer to fire at t + duration * 1000 (the
selected sample duration); the stop callback pauses the instance and resets
its cursor to 0; running the loop stops the instance, and in the combined
issuance trace the start-scheduling event strictly precedes the
stop-scheduling event; playRegisteredSample delegates to playSoundSample on
the registered collection. -/
theorem c1_deferred_stop_after_start
    (p : SoundEffectsPlayer) (g : GlobalState) (key : String)
    (samples : List SoundSample) (vol : Option ℚ) (r now : ℚ)
    (o : PlayOutcome) (inst : AudioElement)
    (h : playSoundSample p g key samples vol r now = Except.ok o)
    (hi : o.inst = some inst) :
    ∃ s : SoundSample,
      selectedSample samples r = some s ∧
      o.timers = [⟨now + 0, Callback.sampleStartCb key s.duration⟩] ∧
      (∀ (t : ℚ) (a : AudioElement),
        (fireCallback t (Callback.sampleStartCb key s.duration) a).2.1 =
          [⟨t + s.duration * 1000, Callback.stopCb⟩]) ∧
      (∀ (t : ℚ) (a : AudioElement),
        (fireCallback t Callback.stopCb a).1.paused = true ∧
        (fireCallback t Callback.stopCb a).1.currentTime = 0) ∧
      (runTimers 2 o.timers inst).1.paused = true ∧
      (runTimers 2 o.timers inst).1.currentTime = 0 ∧
      o.events ++ (runTimers 2 o.timers inst).2 =
        (lazyPreload p g key).2 ++
          [Event.schedStart 0, Event.played key,
           Event.schedStop (s.duration * 1000), Event.stopped] ∧
      (∀ samples2, alistGet p.sampleCollections key = some samples2 →
        playRegisteredSample p g key vol r now =
          playSoundSample p g key samples2 vol r now) := by
  obtain ⟨aud, s, -, -, hs, hinst, ho⟩ :=
    playSoundSample_ok_some p g key samples vol r now o inst h hi
  refine ⟨s, hs, by rw [ho], ?_, ?_, ?_, ?_, ?_, ?_⟩
  · intro t a; rfl
  · intro t a; exact ⟨rfl, rfl⟩
  · rw [ho]; simp [runTimers, fireCallback, stopSound]
  · rw [ho]; simp [runTimers, fireCallback, stopSound]
  · rw [ho]; simp [runTimers, fireCallback, stopSound]
  · intro samples2 hcol
    simp [playRegisteredSample, hcol]

/-- C1 witness: the concrete single-sample demo call, run to completion. -/
theorem c1_witness :
    ∃ s : SoundSample,
      selectedSample [sampleHalf] 0 = some s ∧
      outHalf.timers = [⟨0 + 0, Callback.sampleStartCb "a" s.duration⟩] ∧
      (∀ (t : ℚ) (a : AudioElement),
        (fireCallback t (Callback.sampleStartCb "a" s.duration) a).2.1 =
          [⟨t + s.duration * 1000, Callback.stopCb⟩]) ∧
      (∀ (t : ℚ) (a : AudioElement),
        (fireCallback t Callback.stopCb a).1.paused = true ∧
        (fireCallback t Callback.stopCb a).1.currentTime = 0) ∧
      (runTimers 2 outHalf.timers instHalf).1.paused = true ∧
      (runTimers 2 outHalf.timers instHalf).1.currentTime = 0 ∧
      outHalf.events ++ (runTimers 2 outHalf.timers instHalf).2 =
        (lazyPreload demoP demoG "a").2 ++
          [Event.schedStart 0, Event.played "a",
           Event.schedStop (s.duration * 1000), Event.stopped] ∧
      (∀ samples2, alistGet demoP.sampleCollections "a" = some samples2 →
        playRegisteredSample demoP demoG "a" none 0 0 =
          playSoundSample demoP demoG "a" samples2 none 0 0) :=
  c1_deferred_stop_after_start demoP demoG "a" [sampleHalf] none 0 0 outHalf
    instHalf (playSoundSample_demo_single sampleHalf none) rfl

end SfxPlayer
